import Mathlib

/-!
Shallow embedding of the Push2-Resolume state-synchronization engine
(`src/PropertyDictionary.h`, `src/ResolumeTrackerOSC.h`, `src/OSCListener.h`).

Conventions of the embedding:
* C++ `float` OSC payloads are modelled as rationals (`ℚ`): every comparison the
  code performs on them (`> 0`, `== 1.0f`) is exact on the values that occur.
* C++ `int` is modelled as `Int` (no arithmetic approaches 2^31 anywhere in the
  translated code).
* `std::chrono::steady_clock::time_point` is modelled as a millisecond count
  (`Nat`); `duration_cast<milliseconds>(now - t)` becomes `now - t`
  (truncated `Nat` subtraction: a non-positive C++ duration and the `Nat` value
  `0` compare identically against the 100 ms bound).
* `std::map<std::string, PropertyValue>` is modelled as an association list
  with replace-or-append insertion, so `size()` counts distinct keys exactly as
  the C++ map does.
* Code that throws `std::exception` inside the tracker's `try` block before
  mutating the node being processed (e.g. `std::stoi` on a non-numeric segment,
  or its `std::out_of_range` throw on a numeral outside `int` range) is
  modelled as leaving that node unchanged, which is what the enclosing `catch`
  produces; mutations already performed higher up the call chain (such as the
  layer-list growth done by `getOrCreateLayer` before a clip-id `stoi` throws)
  persist, in the model as in the program.
-/

/-- Model of `PropertyValue` from `PropertyDictionary.h`: a tagged union of
float / int / string (`std::variant<float, int, std::string>`). -/
inductive PropertyValue where
  | floatVal (v : ℚ)
  | intVal (v : Int)
  | stringVal (v : String)
  deriving DecidableEq, Repr

/-- Model of `PropertyDictionary` from `PropertyDictionary.h`: a mapping from string key
to `PropertyValue`. The C++ `std::map` is modelled as an association list whose
keys stay distinct because insertion replaces an existing binding. -/
structure PropertyDictionary where
  properties : List (String × PropertyValue)
  deriving DecidableEq, Repr

namespace PropertyDictionary

/-- The empty dictionary (default-constructed `PropertyDictionary`). -/
def empty : PropertyDictionary := ⟨[]⟩

/-- Model of `properties[key] = value`: replace the binding for `key` if present,
otherwise append a new one (the `std::map` subscript-assign). -/
def setValue (d : PropertyDictionary) (key : String) (v : PropertyValue) :
    PropertyDictionary :=
  if d.properties.any (fun p => p.1 = key) then
    ⟨d.properties.map (fun p => if p.1 = key then (key, v) else p)⟩
  else
    ⟨d.properties ++ [(key, v)]⟩

/-- Model of `PropertyDictionary::setFloat`. -/
def setFloat (d : PropertyDictionary) (key : String) (value : ℚ) : PropertyDictionary :=
  d.setValue key (.floatVal value)

/-- Model of `PropertyDictionary::setInt`. -/
def setInt (d : PropertyDictionary) (key : String) (value : Int) : PropertyDictionary :=
  d.setValue key (.intVal value)

/-- Model of `PropertyDictionary::setString`. -/
def setString (d : PropertyDictionary) (key : String) (value : String) : PropertyDictionary :=
  d.setValue key (.stringVal value)

/-- Model of `properties.find(key)` as an optional lookup. -/
def find (d : PropertyDictionary) (key : String) : Option PropertyValue :=
  d.properties.lookup key

/-- Model of `PropertyDictionary::getFloat(key, default)`: returns the stored float, a
stored int cast to float, or the default. -/
def getFloat (d : PropertyDictionary) (key : String) (defaultValue : ℚ := 0) : ℚ :=
  match d.find key with
  | some (.floatVal v) => v
  | some (.intVal v) => (v : ℚ)
  | _ => defaultValue

/-- Model of `PropertyDictionary::getInt(key, default)`: returns the stored int, a stored
float truncated toward zero (`static_cast<int>`), or the default. -/
def getInt (d : PropertyDictionary) (key : String) (defaultValue : Int := 0) : Int :=
  match d.find key with
  | some (.intVal v) => v
  | some (.floatVal v) => Int.tdiv v.num v.den
  | _ => defaultValue

/-- Model of `PropertyDictionary::getString(key, default)`: only a stored string is
returned; numbers fall back to the default. -/
def getString (d : PropertyDictionary) (key : String) (defaultValue : String := "") :
    String :=
  match d.find key with
  | some (.stringVal v) => v
  | _ => defaultValue

/-- Model of `PropertyDictionary::hasProperty`. -/
def hasProperty (d : PropertyDictionary) (key : String) : Bool :=
  (d.find key).isSome

/-- Model of `PropertyDictionary::size()` (number of distinct keys). -/
def size (d : PropertyDictionary) : Nat :=
  d.properties.length

/-- Model of `PropertyDictionary::clear()`. -/
def clear (_d : PropertyDictionary) : PropertyDictionary := ⟨[]⟩

/-- Model of `PropertyDictionary::setFromOSCData(endpoint, floats, integers, strings)`:
store the first float if any, else the first int, else the first string, else
nothing. -/
def setFromOSCData (d : PropertyDictionary) (endpoint : String)
    (floats : List ℚ) (integers : List Int) (strings : List String) :
    PropertyDictionary :=
  match floats with
  | f :: _ => d.setFloat endpoint f
  | [] =>
    match integers with
    | i :: _ => d.setInt endpoint i
    | [] =>
      match strings with
      | s :: _ => d.setString endpoint s
      | [] => d

theorem lookup_map_replace (l : List (String × PropertyValue)) (key : String)
    (v : PropertyValue) (hmem : l.any (fun p => p.1 = key) = true) :
    (l.map (fun p => if p.1 = key then (key, v) else p)).lookup key = some v := by
  induction l with
  | nil => simp at hmem
  | cons p rest ih =>
    obtain ⟨k, b⟩ := p
    simp only [List.any_cons, decide_eq_true_eq, Bool.or_eq_true] at hmem
    simp only [List.map_cons]
    by_cases hp : (k, b).1 = key
    · rw [if_pos hp, List.lookup_cons, beq_self_eq_true]
    · rw [if_neg hp, List.lookup_cons]
      have hne : (key == k) = false :=
        beq_false_of_ne (fun h => hp (show (k, b).1 = key from h.symm))
      rw [hne]
      rcases hmem with h | h
      · exact absurd h hp
      · exact ih h

theorem lookup_append_singleton (l : List (String × PropertyValue)) (key : String)
    (v : PropertyValue) (hmem : l.any (fun p => p.1 = key) = false) :
    (l ++ [(key, v)]).lookup key = some v := by
  induction l with
  | nil => simp [List.lookup_cons]
  | cons p rest ih =>
    obtain ⟨k, b⟩ := p
    simp only [List.any_cons, Bool.or_eq_false_iff, decide_eq_false_iff_not] at hmem
    rw [List.cons_append, List.lookup_cons]
    have hne : (key == k) = false := beq_false_of_ne (fun h => hmem.1 h.symm)
    rw [hne]
    exact ih hmem.2

/-- Looking up a key right after setting it yields the stored value. -/
theorem find_setValue (d : PropertyDictionary) (key : String) (v : PropertyValue) :
    (d.setValue key v).find key = some v := by
  unfold setValue find
  by_cases h : d.properties.any (fun p => p.1 = key) = true
  · rw [if_pos h]
    exact lookup_map_replace d.properties key v h
  · rw [if_neg h]
    exact lookup_append_singleton d.properties key v (by
      cases hb : d.properties.any (fun p => p.1 = key) with
      | true => exact absurd hb h
      | false => rfl)

end PropertyDictionary

/-! ### OSC address parsing helpers (`ResolumeTrackerOSC.h`) -/

/-- Loop body of `splitOSCPath`: walk the remaining characters, accumulating the
current segment (reversed) and emitting it at each `/` (empty segments are
skipped, and a non-empty trailing segment is emitted at the end). -/
def splitPathAux : List Char → List Char → List String
  | [], acc => if acc.isEmpty then [] else [String.mk acc.reverse]
  | c :: rest, acc =>
    if c = '/' then
      if acc.isEmpty then splitPathAux rest []
      else String.mk acc.reverse :: splitPathAux rest []
    else splitPathAux rest (c :: acc)

/-- Model of `splitOSCPath` from `ResolumeTrackerOSC.h`: split an address into its
`/`-delimited components; an address not starting with `/` yields no parts. -/
def splitOSCPath (address : String) : List String :=
  match address.data with
  | [] => []
  | c :: rest => if c = '/' then splitPathAux rest [] else []

/-- Numeric value of a decimal digit character. -/
def digitVal (c : Char) : Nat := c.toNat - 48

/-- Consume further decimal digits, extending the accumulated value (the digit
loop of `std::stoi`, which stops at the first non-digit). -/
def parseNatAcc : List Char → Nat → Nat
  | c :: rest, acc => if c.isDigit then parseNatAcc rest (acc * 10 + digitVal c) else acc
  | [], acc => acc

/-- Parse a non-empty leading run of decimal digits; `none` when the first
character is not a digit (`std::stoi` throws `std::invalid_argument`). -/
def parseNatLeading : List Char → Option Nat
  | c :: rest => if c.isDigit then some (parseNatAcc rest (digitVal c)) else none
  | [] => none

/-- Model of `std::stoi`: skip leading spaces, accept an optional sign, then parse a
leading run of digits.  `none` models both throws: `std::invalid_argument`
when no digits follow, and `std::out_of_range` when the parsed value does not
fit in a 32-bit `int` (outside `[-2147483648, 2147483647]`).  Either exception
escapes to the enclosing `catch`, which drops the message. -/
def stoi (s : String) : Option Int :=
  match s.data.dropWhile (fun c => c = ' ') with
  | '-' :: rest =>
    (parseNatLeading rest).bind
      (fun n => if n ≤ 2147483648 then some (-(n : Int)) else none)
  | '+' :: rest =>
    (parseNatLeading rest).bind
      (fun n => if n ≤ 2147483647 then some ((n : Int)) else none)
  | rest =>
    (parseNatLeading rest).bind
      (fun n => if n ≤ 2147483647 then some ((n : Int)) else none)

/-- Character-list prefix test used to model `address.find("/composition") == 0`. -/
def isPrefixChars : List Char → List Char → Bool
  | [], _ => true
  | _ :: _, [] => false
  | p :: ps, c :: cs => if p = c then isPrefixChars ps cs else false

/-- Model of `address.find(pre) == 0`: `address` begins with the characters of `pre`. -/
def startsWithPath (address pre : String) : Bool :=
  isPrefixChars pre.data address.data

/-- Model of `std::isdigit(s[0])` guarded by `s.empty()` as the code writes it. -/
def firstCharIsDigit (s : String) : Bool :=
  match s.data with
  | [] => false
  | c :: _ => c.isDigit

/-- Re-join path components with `/` (the endpoint-building loops in
`Effect::processOSCMessage` etc.). -/
def joinPath (parts : List String) : String :=
  String.intercalate "/" parts

/-- Replace the element at a given 0-based index, leaving the list unchanged
when the index is out of range (`vector::operator[]` assignment through a
valid index). -/
def modifyAt {α : Type} (xs : List α) (i : Nat) (f : α → α) : List α :=
  match xs, i with
  | [], _ => []
  | x :: rest, 0 => f x :: rest
  | x :: rest, n + 1 => x :: modifyAt rest n f

/-! ### Entity tree (`ResolumeTrackerOSC.h`) -/

/-- Model of `Effect`: id, name and a property dictionary. -/
structure Effect where
  id : Int
  name : String
  properties : PropertyDictionary
  deriving DecidableEq, Repr

namespace Effect

/-- Model of `Effect::processOSCMessage`: the remaining path (possibly empty) is joined
into an endpoint key and stored via `setFromOSCData`. -/
def processOSCMessage (e : Effect) (pathParts : List String) (floats : List ℚ)
    (integers : List Int) (strings : List String) : Effect :=
  { e with properties := e.properties.setFromOSCData (joinPath pathParts) floats integers strings }

/-- Model of `Effect::clear`. -/
def clear (e : Effect) : Effect :=
  { e with properties := e.properties.clear }

end Effect

/-- Model of `getOrCreateEffect` followed by a use of the returned effect: apply `f` to
the first effect with the given name, or to a freshly created effect (id =
previous length + 1) appended at the end. -/
def applyToEffect (effects : List Effect) (effectName : String) (f : Effect → Effect) :
    List Effect :=
  match effects.findIdx? (fun e => e.name = effectName) with
  | some i => modifyAt effects i f
  | none => effects ++ [f { id := (effects.length : Int) + 1, name := effectName,
                            properties := .empty }]

/-- Model of `Clip`: id, name, properties, effects, and the steady-clock timestamp of
the last `transport/position` update (milliseconds). -/
structure Clip where
  id : Int
  name : String
  properties : PropertyDictionary
  effects : List Effect
  lastTransportUpdate : Nat
  deriving DecidableEq, Repr

namespace Clip

/-- Model of `Clip::Clip(clipId)`: empty clip whose `lastTransportUpdate` is the
creation time (`steady_clock::now()`). -/
def create (clipId : Int) (now : Nat) : Clip :=
  { id := clipId, name := "", properties := .empty, effects := [], lastTransportUpdate := now }

/-- Model of `Clip::exists`: the property-count heuristic (`properties.size() > 3`);
named `existsHeuristic` because `exists` is a Lean keyword. -/
def existsHeuristic (c : Clip) : Bool :=
  decide (3 < c.properties.size)

/-- Model of `Clip::playing` observed at time `now`: a transport update in the last
100 ms and a positive stored `transport/position`. -/
def playing (c : Clip) (now : Nat) : Bool :=
  decide (now - c.lastTransportUpdate < 100) &&
    decide (0 < c.properties.getFloat "transport/position")

/-- Model of `Clip::forceExpire`: overwrite the stored position with `0.0f`. -/
def forceExpire (c : Clip) : Clip :=
  { c with properties := c.properties.setFloat "transport/position" 0 }

/-- Model of `Clip::processOSCMessage` at processing time `now`. -/
def processOSCMessage (c : Clip) (now : Nat) (pathParts : List String) (floats : List ℚ)
    (integers : List Int) (strings : List String) : Clip :=
  match pathParts with
  | [] => { c with properties := c.properties.setFromOSCData "" floats integers strings }
  | parts =>
    if parts = ["name"] && !strings.isEmpty then
      { c with name := strings.headD "" }
    else
      let c :=
        if parts = ["transport", "position"] then { c with lastTransportUpdate := now } else c
      match parts with
      | "video" :: "effects" :: effectName :: remainingPath =>
        let newEffects :=
          applyToEffect c.effects effectName
            (fun e => e.processOSCMessage remainingPath floats integers strings)
        { c with effects := newEffects }
      | _ =>
        { c with properties :=
            c.properties.setFromOSCData (joinPath parts) floats integers strings }

/-- Model of `Clip::clear`. -/
def clear (c : Clip) : Clip :=
  { c with name := "", properties := c.properties.clear, effects := [] }

end Clip

/-- Model of `Layer`: id, properties, effects and a 1-based dynamically grown clip
list. After `Layer::getOrCreateClip` runs, every slot of the C++ vector holds
a live `Clip`, so the list stores `Clip` values directly. -/
structure Layer where
  id : Int
  properties : PropertyDictionary
  effects : List Effect
  clips : List Clip
  deriving DecidableEq, Repr

/-- Grow a clip list so that 1-based index `clipId` is valid, filling the new
slots with fresh clips created at time `now` (the `resize` + fill loop in
`Layer::getOrCreateClip`). -/
def growClips (clips : List Clip) (clipId : Nat) (now : Nat) : List Clip :=
  if clipId ≤ clips.length then clips
  else clips ++ (List.range (clipId - clips.length)).map
    (fun (i : Nat) => Clip.create ((clips.length : Int) + (i : Int) + 1) now)

namespace Layer

/-- Model of `Layer::Layer(layerId)`. -/
def create (layerId : Int) : Layer :=
  { id := layerId, properties := .empty, effects := [], clips := [] }

/-- Model of `Layer::getClip`: 1-based bounds-checked access, `none` for ids outside
`[1, clips.size()]` (the `nullptr` returns). -/
def getClip (l : Layer) (clipId : Int) : Option Clip :=
  if clipId < 1 then none
  else if (l.clips.length : Int) < clipId then none
  else l.clips.get? (clipId.toNat - 1)

/-- Model of `Layer::processOSCMessage` at processing time `now`. -/
def processOSCMessage (l : Layer) (now : Nat) (pathParts : List String) (floats : List ℚ)
    (integers : List Int) (strings : List String) : Layer :=
  match pathParts with
  | [] => { l with properties := l.properties.setFromOSCData "" floats integers strings }
  | "clips" :: p1 :: rest =>
    if !firstCharIsDigit p1 then l
    else
      match stoi p1 with
      | none => l
      | some clipId =>
        if clipId < 1 then l
        else
          let newClips :=
            modifyAt (growClips l.clips clipId.toNat now) (clipId.toNat - 1)
              (fun c => c.processOSCMessage now rest floats integers strings)
          { l with clips := newClips }
  | "video" :: "effects" :: effectName :: remainingPath =>
    let newEffects :=
      applyToEffect l.effects effectName
        (fun e => e.processOSCMessage remainingPath floats integers strings)
    { l with effects := newEffects }
  | parts =>
    { l with properties := l.properties.setFromOSCData (joinPath parts) floats integers strings }

/-- Model of `Layer::clear`: properties and effects are dropped, the clip slots are
kept but each clip is cleared. -/
def clear (l : Layer) : Layer :=
  { l with properties := l.properties.clear, effects := [],
           clips := l.clips.map Clip.clear }

/-- Model of `Layer::timeoutAllExcept`. -/
def timeoutAllExcept (l : Layer) (exceptClipId : Int) : Layer :=
  { l with clips := l.clips.map (fun c => if c.id ≠ exceptClipId then c.forceExpire else c) }

end Layer

/-! ### `ResolumeTracker` (`ResolumeTrackerOSC.h`) -/

/-- The `LastSelectionType` enum inside `ResolumeTracker`. -/
inductive LastSelectionType where
  | NONE
  | LAYER
  | CLIP
  deriving DecidableEq, Repr

/-- The state of `ResolumeTracker`: the layer tree plus the scalar
selection/connection state.  The listener pointer, worker thread and message
queue live outside the state mirrored here; messages are fed in directly
through `processOSCMessage`. -/
structure ResolumeTracker where
  layers : List Layer
  selectedColumnId : Int
  selectedLayerId : Int
  selectedClipLayerId : Int
  selectedClipId : Int
  selectedDeckId : Int
  connectedColumnId : Int
  currentDeckId : Int
  deckInitialized : Bool
  lastSelectedLayerId : Int
  lastSelectedClipLayerId : Int
  lastSelectedClipId : Int
  lastSelectionType : LastSelectionType
  deriving DecidableEq, Repr

/-- Grow the layer list so that 1-based index `layerId` is valid (the
`resize` + fill loop in `ResolumeTracker::getOrCreateLayer`). -/
def growLayers (layers : List Layer) (layerId : Nat) : List Layer :=
  if layerId ≤ layers.length then layers
  else layers ++ (List.range (layerId - layers.length)).map
    (fun (i : Nat) => Layer.create ((layers.length : Int) + (i : Int) + 1))

namespace ResolumeTracker

/-- A freshly constructed `ResolumeTracker` (all ids zero, no layers). -/
def empty : ResolumeTracker :=
  { layers := [], selectedColumnId := 0, selectedLayerId := 0, selectedClipLayerId := 0,
    selectedClipId := 0, selectedDeckId := 0, connectedColumnId := 0, currentDeckId := 0,
    deckInitialized := false, lastSelectedLayerId := 0, lastSelectedClipLayerId := 0,
    lastSelectedClipId := 0, lastSelectionType := .NONE }

/-- Model of `ResolumeTracker::clear()`: zero the selection scalars and drop every
layer. (`currentDeckId` and `deckInitialized` are left untouched; the queue
drain it also performs lives outside the mirrored state.) -/
def clear (t : ResolumeTracker) : ResolumeTracker :=
  { t with selectedColumnId := 0, connectedColumnId := 0, selectedLayerId := 0,
           selectedClipLayerId := 0, selectedClipId := 0,
           lastSelectionType := .NONE, layers := [] }

/-- Model of `ResolumeTracker::getLayer`: 1-based bounds-checked access. -/
def getLayer (t : ResolumeTracker) (layerId : Int) : Option Layer :=
  if 1 ≤ layerId ∧ layerId ≤ (t.layers.length : Int) then
    t.layers.get? (layerId.toNat - 1)
  else none

/-- Model of `ResolumeTracker::getLayerCount`. -/
def getLayerCount (t : ResolumeTracker) : Nat :=
  t.layers.length

/-- Model of `ResolumeTracker::getColumnCount`: for each layer count the clips with a
non-empty name, and return the largest such count (translated loop for loop,
accumulator included). -/
def getColumnCount (t : ResolumeTracker) : Nat :=
  t.layers.foldl
    (fun maxClips layer =>
      let count := layer.clips.foldl
        (fun n c => if !c.name.isEmpty then n + 1 else n) 0
      if maxClips < count then count else maxClips)
    0

/-- The select/connect block of `ResolumeTracker::processOSCMessage`
(lines 517-561): `some t2` models a `return` with resulting state `t2`,
`none` models falling through to the code after the block. -/
def selectConnectStep (t : ResolumeTracker) (pathParts : List String)
    (isSelect isConnect asserting : Bool) : Option ResolumeTracker :=
  if !(isSelect || (isConnect && asserting)) then none
  else if pathParts.headD "" = "columns" then
    match stoi (pathParts.getD 1 "") with
    | none => some t
    | some columnId =>
      if isSelect then some { t with selectedColumnId := columnId }
      else some { t with connectedColumnId := columnId }
  else if pathParts.headD "" = "layers" then
    match stoi (pathParts.getD 1 "") with
    | none => some t
    | some layerId =>
      if pathParts.length = 3 ∧ pathParts.getD 2 "" = "select" then
        some { t with selectedLayerId := layerId }
      else if 4 ≤ pathParts.length ∧ pathParts.getD 2 "" = "clips" then
        if !firstCharIsDigit (pathParts.getD 3 "") then some t
        else
          match stoi (pathParts.getD 3 "") with
          | none => some t
          | some clipId =>
            if isSelect then
              some { t with selectedClipLayerId := layerId, selectedClipId := clipId }
            else some t
      else none
  else none

/-- Model of `ResolumeTracker::getOrCreateLayer` + dispatch into the layer (the
trickledown step, lines 569-578): ids below 1 or above the sanity ceiling of
100 yield `nullptr`, so the message is dropped. -/
def routeToLayer (t : ResolumeTracker) (now : Nat) (layerId : Int)
    (remainingPath : List String) (floats : List ℚ) (integers : List Int)
    (strings : List String) : ResolumeTracker :=
  if layerId < 1 then t
  else if 100 < layerId then t
  else
    let grown := growLayers t.layers layerId.toNat
    let newLayers := modifyAt grown (layerId.toNat - 1)
      (fun l => l.processOSCMessage now remainingPath floats integers strings)
    { t with layers := newLayers }

/-- Model of `ResolumeTracker::processOSCMessage` on already-split path components
(everything after the `/composition` prefix checks). -/
def processParsed (t : ResolumeTracker) (now : Nat) (pathParts : List String)
    (floats : List ℚ) (integers : List Int) (strings : List String) : ResolumeTracker :=
  match pathParts with
  | [] => t
  | p0 :: _ =>
    if p0 = "decks" ∧ 3 ≤ pathParts.length then
      match stoi (pathParts.getD 1 "") with
      | none => t
      | some deckId =>
        if pathParts.getD 2 "" = "select" ∧ integers.isEmpty then
          if deckId ≠ t.currentDeckId then
            { t.clear with currentDeckId := deckId }
          else t
        else t
    else
      let endpoint := pathParts.getLastD ""
      let isSelect := endpoint = "select"
      let isConnect := endpoint = "connect"
      let asserting :=
        (match integers with | i :: _ => decide (i = 1) | [] => false) ||
        (match floats with | f :: _ => decide (f = 1) | [] => false)
      match selectConnectStep t pathParts isSelect isConnect asserting with
      | some t2 => t2
      | none =>
        if endpoint = "selected" ∨ endpoint = "connected" then t
        else if p0 = "layers" ∧ 2 ≤ pathParts.length then
          match stoi (pathParts.getD 1 "") with
          | none => t
          | some layerId =>
            t.routeToLayer now layerId (pathParts.drop 2) floats integers strings
        else t

/-- Model of `ResolumeTracker::processOSCMessage(address, floats, integers, strings)` at
processing time `now`: reject addresses that do not start with
`/composition`, split the address, demand the leading `composition`
component, and process the rest. -/
def processOSCMessage (t : ResolumeTracker) (now : Nat) (address : String)
    (floats : List ℚ) (integers : List Int) (strings : List String) : ResolumeTracker :=
  if !startsWithPath address "/composition" then t
  else
    match splitOSCPath address with
    | [] => t
    | p0 :: rest =>
      if p0 = "composition" then t.processParsed now rest floats integers strings
      else t

/-- Model of `ResolumeTracker::doesClipExist(column, layer)`. -/
def doesClipExist (t : ResolumeTracker) (column layer : Int) : Bool :=
  match t.getLayer layer with
  | none => false
  | some layerObj =>
    match layerObj.getClip column with
    | none => false
    | some clipObj => clipObj.existsHeuristic

/-- Model of `ResolumeTracker::isColumnConnected(column)`. -/
def isColumnConnected (t : ResolumeTracker) (column : Int) : Bool :=
  decide (t.connectedColumnId = column)

/-- Model of `ResolumeTracker::isClipPlaying(column, layer)` observed at time `now`. -/
def isClipPlaying (t : ResolumeTracker) (column layer : Int) (now : Nat) : Bool :=
  match t.getLayer layer with
  | none => false
  | some layerObj =>
    match layerObj.getClip column with
    | none => false
    | some clipObj => clipObj.playing now

/-- Model of `ResolumeTracker::doesLayerExist(layer)`: the layer slot exists and holds
at least one clip with a non-empty name. -/
def doesLayerExist (t : ResolumeTracker) (layer : Int) : Bool :=
  match t.getLayer layer with
  | none => false
  | some layerObj => layerObj.clips.any (fun c => !c.name.isEmpty)

/-- Model of `ResolumeTracker::setCurrentDeck(deckId)`. -/
def setCurrentDeck (t : ResolumeTracker) (deckId : Int) : ResolumeTracker :=
  let t2 := if t.deckInitialized ∧ deckId ≠ t.currentDeckId then t.clear else t
  { t2 with currentDeckId := deckId, deckInitialized := true }

/-- Model of `ResolumeTracker::getCurrentDeck` / `getCurrentDeckId`. -/
def getCurrentDeckId (t : ResolumeTracker) : Int :=
  t.currentDeckId

/-- Model of `ResolumeTracker::getConnectedColumn`. -/
def getConnectedColumn (t : ResolumeTracker) : Int :=
  t.connectedColumnId

end ResolumeTracker

/-! ### Query correlation (`OSCListener.h`) -/

/-- Model of `OSCListenerMessage`: the decoded message record used both for inbound
messages and as the pending-query result slot. -/
structure OSCListenerMessage where
  hasValue : Bool
  address : String
  floats : List ℚ
  integers : List Int
  strings : List String
  deriving DecidableEq, Repr

/-- A default-constructed `OSCListenerMessage{}`. -/
def emptyListenerMessage : OSCListenerMessage :=
  { hasValue := false, address := "", floats := [], integers := [], strings := [] }

/-- The `pendingQueries` map (`std::map<std::string, OSCListenerMessage>`),
modelled by its lookup function. -/
def PendingMap : Type := String → Option OSCListenerMessage

/-- Store or overwrite a pending entry (`pendingQueries[address] = msg`). -/
def setPending (p : PendingMap) (address : String) (msg : OSCListenerMessage) : PendingMap :=
  fun k => if k = address then some msg else p k

/-- Model of `pendingQueries.erase(address)`. -/
def erasePending (p : PendingMap) (address : String) : PendingMap :=
  fun k => if k = address then none else p k

/-- The pending-query check at the top of
`ResolumeOSCListener::ProcessMessage`: an inbound message whose address has a
pending, not-yet-satisfied entry is copied into that entry and consumed
(second component `true`); otherwise the map is untouched and the message
flows on to the normal queue. -/
def processInboundForQuery (p : PendingMap) (m : OSCListenerMessage) :
    PendingMap × Bool :=
  match p m.address with
  | some entry =>
    if entry.hasValue then (p, false)
    else
      (setPending p m.address
        { hasValue := true, address := m.address, floats := m.floats,
          integers := m.integers, strings := m.strings }, true)
  | none => (p, false)

/-- The two `std::runtime_error` throws reachable from
`ResolumeOSCListener::query`. -/
inductive QueryError where
  | senderNotSet
  | timeout (address : String)
  deriving DecidableEq, Repr

/-- Model of `ResolumeOSCListener::query(address, timeoutMs)`.

The blocking wait is modelled by passing in `arrivals`: the inbound messages
the listener processes between the registration of the pending entry and the
expiry of the timeout.  The function registers an empty pending entry,
lets each arrival run through the `ProcessMessage` pending-query check, then
reads the entry back exactly as the predicate of `wait_for` does: if it was
satisfied the entry is erased and returned, otherwise the entry is erased and
the timeout error is thrown.  `senderSet = false` models a null `oscSender`
(throws before touching the map). -/
def query (senderSet : Bool) (p : PendingMap) (address : String)
    (arrivals : List OSCListenerMessage) :
    PendingMap × Except QueryError OSCListenerMessage :=
  if !senderSet then (p, .error .senderNotSet)
  else
    let p1 := setPending p address emptyListenerMessage
    let p2 := arrivals.foldl (fun q m => (processInboundForQuery q m).1) p1
    match p2 address with
    | some entry =>
      if entry.hasValue then (erasePending p2 address, .ok entry)
      else (erasePending p2 address, .error (.timeout address))
    | none => (erasePending p2 address, .error (.timeout address))

/-- Model of `ResolumeOSCListener::QueryInt`: the emptiness guard in the source is
commented out, so the code runs `result.integers[0]` unconditionally; the
unchecked `std::vector` indexing is modelled as `List.head?`, where `none`
marks an out-of-bounds access. -/
def QueryInt (senderSet : Bool) (p : PendingMap) (address : String)
    (arrivals : List OSCListenerMessage) :
    PendingMap × Except QueryError (Option Int) :=
  match query senderSet p address arrivals with
  | (p2, .error e) => (p2, .error e)
  | (p2, .ok result) => (p2, .ok result.integers.head?)

/-- Model of `ResolumeOSCListener::QueryFloat` (same commented-out guard). -/
def QueryFloat (senderSet : Bool) (p : PendingMap) (address : String)
    (arrivals : List OSCListenerMessage) :
    PendingMap × Except QueryError (Option ℚ) :=
  match query senderSet p address arrivals with
  | (p2, .error e) => (p2, .error e)
  | (p2, .ok result) => (p2, .ok result.floats.head?)

/-- Model of `ResolumeOSCListener::QueryString` (same commented-out guard). -/
def QueryString (senderSet : Bool) (p : PendingMap) (address : String)
    (arrivals : List OSCListenerMessage) :
    PendingMap × Except QueryError (Option String) :=
  match query senderSet p address arrivals with
  | (p2, .error e) => (p2, .error e)
  | (p2, .ok result) => (p2, .ok result.strings.head?)

/-! ### Helper lemmas about the list operations of the embedding -/

theorem length_modifyAt {α : Type} (xs : List α) (i : Nat) (f : α → α) :
    (modifyAt xs i f).length = xs.length := by
  induction xs generalizing i with
  | nil => rfl
  | cons x rest ih =>
    cases i with
    | zero => rfl
    | succ n => simpa [modifyAt] using ih n

theorem get?_modifyAt_self {α : Type} (xs : List α) (i : Nat) (f : α → α) :
    (modifyAt xs i f).get? i = (xs.get? i).map f := by
  induction xs generalizing i with
  | nil => rfl
  | cons x rest ih =>
    cases i with
    | zero => rfl
    | succ n => simpa [modifyAt] using ih n

theorem length_growLayers (xs : List Layer) (n : Nat) :
    (growLayers xs n).length = max xs.length n := by
  unfold growLayers
  by_cases h : n ≤ xs.length
  · rw [if_pos h, Nat.max_eq_left h]
  · rw [if_neg h, List.length_append, List.length_map, List.length_range]
    omega

theorem length_growClips (xs : List Clip) (n now : Nat) :
    (growClips xs n now).length = max xs.length n := by
  unfold growClips
  by_cases h : n ≤ xs.length
  · rw [if_pos h, Nat.max_eq_left h]
  · rw [if_neg h, List.length_append, List.length_map, List.length_range]
    omega

theorem growLayers_nil (n : Nat) :
    growLayers [] n =
      (List.range n).map (fun (i : Nat) => Layer.create ((0 : Int) + (i : Int) + 1)) := by
  unfold growLayers
  cases n with
  | zero => rfl
  | succ k => simp

theorem growClips_nil (n now : Nat) :
    growClips [] n now =
      (List.range n).map (fun (i : Nat) => Clip.create ((0 : Int) + (i : Int) + 1) now) := by
  unfold growClips
  cases n with
  | zero => rfl
  | succ k => simp

theorem get?_isSome_of_lt {α : Type} (xs : List α) (i : Nat) (h : i < xs.length) :
    ∃ x, xs.get? i = some x := by
  cases hg : xs.get? i with
  | some x => exact ⟨x, rfl⟩
  | none => rw [List.get?_eq_none] at hg; omega

/-- Lemma: `getLayer` succeeds exactly on 1-based indices within the layer list. -/
theorem getLayer_eq_get? (t : ResolumeTracker) (k : Int) (h1 : 1 ≤ k)
    (h2 : k ≤ (t.layers.length : Int)) :
    t.getLayer k = t.layers.get? (k.toNat - 1) := by
  unfold ResolumeTracker.getLayer
  rw [if_pos ⟨h1, h2⟩]

theorem getLayer_isSome (t : ResolumeTracker) (k : Int) (h1 : 1 ≤ k)
    (h2 : k ≤ (t.layers.length : Int)) :
    ∃ L, t.getLayer k = some L := by
  rw [getLayer_eq_get? t k h1 h2]
  exact get?_isSome_of_lt _ _ (by omega)

theorem getClip_eq_get? (l : Layer) (k : Int) (h1 : 1 ≤ k)
    (h2 : k ≤ (l.clips.length : Int)) :
    l.getClip k = l.clips.get? (k.toNat - 1) := by
  unfold Layer.getClip
  rw [if_neg (by omega), if_neg (by omega)]

theorem getFloat_setFloat (d : PropertyDictionary) (key : String) (v : ℚ) (dv : ℚ) :
    (d.setFloat key v).getFloat key dv = v := by
  unfold PropertyDictionary.getFloat PropertyDictionary.setFloat
  rw [PropertyDictionary.find_setValue]

/-! ### Claim theorems -/

/-- C8: `setFromOSCData` stores exactly one value under the key — the first
float if the float array is non-empty, otherwise the first int, otherwise the
first string; further elements never appear, and when all three arrays are
empty the dictionary is returned unchanged. -/
theorem C8_setFromOSCData_first_value_priority (d : PropertyDictionary) (key : String)
    (floats : List ℚ) (integers : List Int) (strings : List String) :
    ((d.setFromOSCData key floats integers strings).find key =
      match floats, integers, strings with
      | f :: _, _, _ => some (.floatVal f)
      | [], i :: _, _ => some (.intVal i)
      | [], [], s :: _ => some (.stringVal s)
      | [], [], [] => d.find key)
    ∧ d.setFromOSCData key [] [] [] = d := by
  refine ⟨?_, rfl⟩
  cases floats with
  | cons f fs => exact d.find_setValue key (.floatVal f)
  | nil =>
    cases integers with
    | cons i is => exact d.find_setValue key (.intVal i)
    | nil =>
      cases strings with
      | cons s ss => exact d.find_setValue key (.stringVal s)
      | nil => rfl

/-- C5: `doesClipExist(column, layer)` is true exactly when the layer and clip
nodes exist in the tree and the clip's stored property count is strictly
greater than 3; a clip with 3 or fewer properties is reported as not
existing. -/
theorem C5_doesClipExist_iff_threshold (t : ResolumeTracker) (column layer : Int) :
    t.doesClipExist column layer = true ↔
      ∃ layerObj clipObj, t.getLayer layer = some layerObj ∧
        layerObj.getClip column = some clipObj ∧ 3 < clipObj.properties.size := by
  constructor
  · intro h
    unfold ResolumeTracker.doesClipExist at h
    cases h1 : t.getLayer layer with
    | none => rw [h1] at h; simp at h
    | some L =>
      rw [h1] at h
      cases h2 : L.getClip column with
      | none => simp [h2] at h
      | some c =>
        refine ⟨L, c, rfl, h2, ?_⟩
        simpa [h2, Clip.existsHeuristic] using h
  · rintro ⟨L, c, hL, hc, hsize⟩
    unfold ResolumeTracker.doesClipExist
    rw [hL]
    simp only [hc, Clip.existsHeuristic]
    simpa using hsize

/-- C9 counterexample: on a freshly constructed tracker no column is connected
(`connectedColumnId = 0`), yet `isColumnConnected(0)` returns `true`, not
`false` as the claim states. -/
theorem C9_isColumnConnected_zero_counterexample :
    ResolumeTracker.empty.connectedColumnId = 0 ∧
    ResolumeTracker.empty.isColumnConnected 0 = true := ⟨rfl, rfl⟩

/-- C9 (amended): `doesClipExist`, `isClipPlaying` and `doesLayerExist` return
false for ids that are zero, negative, or do not refer to an existing entity —
including a positive column beyond an existing layer's clip list, where
`getClip` returns null; `isColumnConnected`, however, is a plain equality test
against `connectedColumnId`, so `isColumnConnected 0` is `true` whenever no
column is connected. -/
theorem C9_accessors_default_false (t : ResolumeTracker) (column layer : Int) (now : Nat) :
    (t.getLayer layer = none →
      t.doesClipExist column layer = false ∧ t.isClipPlaying column layer now = false ∧
        t.doesLayerExist layer = false)
    ∧ (layer ≤ 0 → t.getLayer layer = none)
    ∧ (column ≤ 0 →
        t.doesClipExist column layer = false ∧ t.isClipPlaying column layer now = false)
    ∧ (t.isColumnConnected column = true ↔ t.connectedColumnId = column)
    ∧ (∀ L, t.getLayer layer = some L → L.getClip column = none →
        t.doesClipExist column layer = false ∧ t.isClipPlaying column layer now = false)
    ∧ (∀ L, t.getLayer layer = some L → (L.clips.length : Int) < column →
        L.getClip column = none) := by
  refine ⟨?_, ?_, ?_, by simp [ResolumeTracker.isColumnConnected], ?_, ?_⟩
  · intro h
    unfold ResolumeTracker.doesClipExist ResolumeTracker.isClipPlaying
      ResolumeTracker.doesLayerExist
    rw [h]
    exact ⟨rfl, rfl, rfl⟩
  · intro h
    unfold ResolumeTracker.getLayer
    rw [if_neg (by omega)]
  · intro h
    unfold ResolumeTracker.doesClipExist ResolumeTracker.isClipPlaying
    cases hL : t.getLayer layer with
    | none => exact ⟨rfl, rfl⟩
    | some L =>
      have hc : L.getClip column = none := by
        unfold Layer.getClip
        rw [if_pos (by omega)]
      simp [hc]
  · intro L hL hc
    unfold ResolumeTracker.doesClipExist ResolumeTracker.isClipPlaying
    rw [hL]
    simp [hc]
  · intro L hL hlen
    unfold Layer.getClip
    by_cases h1 : column < 1
    · rw [if_pos h1]
    · rw [if_neg h1, if_pos hlen]

/-- C9 witness: the amended statement applied at the fresh tracker with
column 0, layer 0, time 0, and — for the nonexistent-clip case — at a tracker
whose layer 1 holds a single clip, asking about column 5. -/
theorem C9_accessors_default_false_witness :
    ResolumeTracker.empty.doesClipExist 0 0 = false ∧
    ResolumeTracker.empty.doesLayerExist 0 = false ∧
    (ResolumeTracker.empty.isColumnConnected 0 = true ↔
      ResolumeTracker.empty.connectedColumnId = 0) ∧
    (ResolumeTracker.empty.processOSCMessage 0 "/composition/layers/1/clips/1/name"
      [] [] ["Foo"]).doesClipExist 5 1 = false ∧
    (ResolumeTracker.empty.processOSCMessage 0 "/composition/layers/1/clips/1/name"
      [] [] ["Foo"]).isClipPlaying 5 1 0 = false := by
  obtain ⟨h1, h2, h3, h4, h5, h6⟩ := C9_accessors_default_false ResolumeTracker.empty 0 0 0
  have hnone : ResolumeTracker.empty.getLayer 0 = none := h2 (by decide)
  obtain ⟨g1, g2, g3, g4, g5, g6⟩ := C9_accessors_default_false
    (ResolumeTracker.empty.processOSCMessage 0 "/composition/layers/1/clips/1/name"
      [] [] ["Foo"]) 5 1 0
  have hclip := g5 _ rfl (g6 _ rfl (by decide))
  exact ⟨(h1 hnone).1, (h1 hnone).2.2, h4, hclip.1, hclip.2⟩

/-- C4: after a `transport/position` message with payload `v` processed at
time `t0`, the clip reports playing at observation time `t` exactly when less
than 100 ms have elapsed since `t0` and `v > 0`; in particular the playing
state decays to false once the recency window elapses with no further update,
with no explicit stop message needed. -/
theorem C4_playing_iff_recent_and_positive (c : Clip) (v : ℚ) (t0 t : Nat) :
    (c.processOSCMessage t0 ["transport", "position"] [v] [] []).playing t = true ↔
      (t - t0 < 100 ∧ 0 < v) := by
  have hstep : c.processOSCMessage t0 ["transport", "position"] [v] [] [] =
      { c with lastTransportUpdate := t0,
               properties := c.properties.setFloat "transport/position" v } := rfl
  rw [hstep]
  unfold Clip.playing
  simp only [getFloat_setFloat]
  simp

/-- An inbound message addressed elsewhere leaves a given pending key
untouched. -/
theorem processInboundForQuery_other (q : PendingMap) (m : OSCListenerMessage)
    (address : String) (hne : m.address ≠ address) :
    (processInboundForQuery q m).1 address = q address := by
  unfold processInboundForQuery
  cases q m.address with
  | none => rfl
  | some entry =>
    cases he : entry.hasValue with
    | true => simp [he]
    | false =>
      unfold setPending
      simp only [he, Bool.false_eq_true, if_false]
      rw [if_neg (fun h => hne h.symm)]

/-- Running the arrivals through the pending-query check: the entry at
`address` stays present and its `hasValue` flag becomes true exactly when it
already was or some arrival matches the address. -/
theorem foldl_query_entry (arrivals : List OSCListenerMessage) (q : PendingMap)
    (address : String) (e : OSCListenerMessage) (hq : q address = some e) :
    ∃ e2, (arrivals.foldl (fun p m => (processInboundForQuery p m).1) q) address = some e2 ∧
      e2.hasValue = (e.hasValue || arrivals.any (fun m => m.address = address)) := by
  induction arrivals generalizing q e with
  | nil => exact ⟨e, hq, by simp⟩
  | cons m rest ih =>
    simp only [List.foldl_cons, List.any_cons]
    by_cases hm : m.address = address
    · cases he : e.hasValue with
      | false =>
        have hstep : (processInboundForQuery q m).1 address =
            some { hasValue := true, address := m.address, floats := m.floats,
                   integers := m.integers, strings := m.strings } := by
          unfold processInboundForQuery setPending
          rw [hm, hq]
          simp [he]
        obtain ⟨e2, h1, h2⟩ := ih _ _ hstep
        exact ⟨e2, h1, by rw [h2]; simp [hm, he]⟩
      | true =>
        have hstep : (processInboundForQuery q m).1 address = some e := by
          unfold processInboundForQuery
          rw [hm, hq]
          simpa [he] using hq
        obtain ⟨e2, h1, h2⟩ := ih _ _ hstep
        exact ⟨e2, h1, by rw [h2]; simp [he]⟩
    · have hstep : (processInboundForQuery q m).1 address = q address :=
        processInboundForQuery_other q m address hm
      rw [hq] at hstep
      obtain ⟨e2, h1, h2⟩ := ih _ _ hstep
      exact ⟨e2, h1, by rw [h2]; simp [hm]⟩

/-- C2: with a sender configured, `query` fails with the timeout error exactly
when no arrival within the timeout matches the queried address, and in every
case (reply or timeout) the pending-map entry for the address is gone when
`query` returns. -/
theorem C2_query_timeout_iff_and_entry_removed (p : PendingMap) (address : String)
    (arrivals : List OSCListenerMessage) :
    ((query true p address arrivals).2 = .error (.timeout address) ↔
      arrivals.all (fun m => m.address ≠ address) = true)
    ∧ (query true p address arrivals).1 address = none := by
  unfold query
  simp only [Bool.not_true, Bool.false_eq_true, if_false]
  have hq1 : setPending p address emptyListenerMessage address = some emptyListenerMessage := by
    unfold setPending
    rw [if_pos rfl]
  obtain ⟨e2, h1, h2⟩ := foldl_query_entry arrivals _ address _ hq1
  rw [h1]
  dsimp only
  have herase : erasePending
      (arrivals.foldl (fun q m => (processInboundForQuery q m).1)
        (setPending p address emptyListenerMessage)) address address = none := by
    unfold erasePending
    rw [if_pos rfl]
  have h2a : arrivals.any (fun m => m.address = address) = e2.hasValue := by
    rw [h2]; simp [emptyListenerMessage]
  cases hval : e2.hasValue with
  | true =>
    rw [if_pos rfl]
    refine ⟨⟨fun h => absurd h (by simp), fun hall => ?_⟩, herase⟩
    exfalso
    rw [hval] at h2a
    rw [List.all_eq_true] at hall
    rw [List.any_eq_true] at h2a
    obtain ⟨m, hmem, hmm⟩ := h2a
    exact absurd (of_decide_eq_true hmm) (by simpa using hall m hmem)
  | false =>
    rw [if_neg (by simp)]
    refine ⟨⟨fun _ => ?_, fun _ => rfl⟩, herase⟩
    rw [hval] at h2a
    rw [List.all_eq_true]
    intro m hmem
    rw [List.any_eq_false] at h2a
    simpa using h2a m hmem

/-- The inbound reply used to exhibit the unchecked indexing in `QueryInt`:
it matches the queried address but carries only a string payload. -/
def stringOnlyReply : OSCListenerMessage :=
  { hasValue := true, address := "/composition/layers/1/clips/1/name",
    floats := [], integers := [], strings := ["Foo"] }

/-- C3: a reply that arrives before the timeout but whose integer array is
empty does not make `QueryInt` fail with a distinct error — the guard is
commented out in the source, so the code evaluates `result.integers[0]` on an
empty `std::vector` (an out-of-bounds access, `none` in the embedding) while
the string payload shows the reply was received. -/
theorem C3_queryInt_out_of_bounds_on_empty_reply :
    (query true (fun _ => none) "/composition/layers/1/clips/1/name"
        [stringOnlyReply]).2 = .ok stringOnlyReply
    ∧ (QueryInt true (fun _ => none) "/composition/layers/1/clips/1/name"
        [stringOnlyReply]).2 = .ok none
    ∧ (QueryString true (fun _ => none) "/composition/layers/1/clips/1/name"
        [stringOnlyReply]).2 = .ok (some "Foo") := by
  refine ⟨rfl, rfl, rfl⟩

/-- The spec's reading of `getColumnCount` ("max populated clip index across
all layers"): the largest 1-based position, over every layer, at which a clip
with a non-empty name sits.  Stated from the spec's words, for comparison
with the code's `getColumnCount`. -/
def specMaxPopulatedClipIndex (t : ResolumeTracker) : Nat :=
  (t.layers.map (fun l =>
    (l.clips.enum.filter (fun p => !p.2.name.isEmpty)).foldl
      (fun m p => max m (p.1 + 1)) 0)).foldl max 0

/-- What `getColumnCount` actually computes, phrased as in the amended claim:
the maximum, over all layers, of the number of clips with a non-empty name in
that layer. -/
def specMaxNamedClipCount (t : ResolumeTracker) : Nat :=
  (t.layers.map (fun l => (l.clips.filter (fun c => !c.name.isEmpty)).length)).foldl max 0

/-- C6 counterexample: after naming only clip 3 of layer 1 (clips 1 and 2
exist but are unnamed), the largest populated clip index is 3, yet
`getColumnCount` returns 1 — so `getColumnCount` is not the max populated
clip index. -/
theorem C6_getColumnCount_counterexample :
    (ResolumeTracker.empty.processOSCMessage 0 "/composition/layers/1/clips/3/name"
        [] [] ["Foo"]).getColumnCount = 1
    ∧ specMaxPopulatedClipIndex
        (ResolumeTracker.empty.processOSCMessage 0 "/composition/layers/1/clips/3/name"
          [] [] ["Foo"]) = 3 := by
  refine ⟨rfl, rfl⟩

theorem foldl_count_filter {α : Type} (p : α → Bool) (xs : List α) (a : Nat) :
    xs.foldl (fun n c => if p c then n + 1 else n) a = a + (xs.filter p).length := by
  induction xs generalizing a with
  | nil => simp
  | cons x rest ih =>
    simp only [List.foldl_cons, List.filter_cons]
    cases hp : p x with
    | true => rw [if_pos rfl]; rw [ih]; simp; omega
    | false => rw [if_neg (by simp)]; rw [ih]; simp

theorem foldl_if_lt_max {α : Type} (g : α → Nat) (xs : List α) (a : Nat) :
    xs.foldl (fun m x => if m < g x then g x else m) a =
      xs.foldl (fun m x => max m (g x)) a := by
  induction xs generalizing a with
  | nil => rfl
  | cons x rest ih =>
    simp only [List.foldl_cons]
    rw [show (if a < g x then g x else a) = max a (g x) by
      rcases Nat.lt_or_ge a (g x) with h | h
      · rw [if_pos h, Nat.max_eq_right h.le]
      · rw [if_neg (Nat.not_lt.mpr h), Nat.max_eq_left h]]
    exact ih _

/-- C6 (amended): `getColumnCount` returns the maximum, over all layers, of
the number of clips with a non-empty name in that layer — a count of
populated clips, not the largest populated index. -/
theorem C6_getColumnCount_is_max_named_count (t : ResolumeTracker) :
    t.getColumnCount = specMaxNamedClipCount t := by
  unfold ResolumeTracker.getColumnCount specMaxNamedClipCount
  rw [List.foldl_map]
  have hpoint : ∀ (l : Layer),
      (l.clips.foldl (fun n c => if !c.name.isEmpty then n + 1 else n) 0) =
        (l.clips.filter (fun c => !c.name.isEmpty)).length := by
    intro l
    rw [foldl_count_filter]
    omega
  calc t.layers.foldl
        (fun maxClips layer =>
          let count := layer.clips.foldl (fun n c => if !c.name.isEmpty then n + 1 else n) 0
          if maxClips < count then count else maxClips) 0
      = t.layers.foldl
          (fun maxClips layer =>
            let count := (layer.clips.filter (fun c => !c.name.isEmpty)).length
            if maxClips < count then count else maxClips) 0 := by
        simp only [hpoint]
    _ = t.layers.foldl
          (fun maxClips layer =>
            max maxClips ((layer.clips.filter (fun c => !c.name.isEmpty)).length)) 0 := by
        exact foldl_if_lt_max (fun layer => (layer.clips.filter (fun c => !c.name.isEmpty)).length)
          t.layers 0

/-- Unfolding step: a well-formed `/composition/...` address is processed by
`processParsed` on the components after `composition`. -/
theorem processOSCMessage_eq_processParsed (t : ResolumeTracker) (now : Nat)
    (addr : String) (rest : List String) (floats : List ℚ) (integers : List Int)
    (strings : List String)
    (hpre : startsWithPath addr "/composition" = true)
    (hsplit : splitOSCPath addr = "composition" :: rest) :
    t.processOSCMessage now addr floats integers strings =
      t.processParsed now rest floats integers strings := by
  unfold ResolumeTracker.processOSCMessage
  rw [hpre, hsplit]
  simp

/-- C1 (amended): a deck-select for a different deck id performs the full
clear and adopts the id only when the message carries no integer payload (the
code notes select is sent with no payload); a deck-select carrying any
integer payload — even the truthy `1` — is ignored.  After the clear,
`doesClipExist(2,3)` is false. -/
theorem C1_deck_select_clears_only_without_int_payload (t : ResolumeTracker)
    (addr ds : String) (d : Int) (now : Nat)
    (hpre : startsWithPath addr "/composition" = true)
    (hsplit : splitOSCPath addr = ["composition", "decks", ds, "select"])
    (hds : stoi ds = some d) :
    (d ≠ t.currentDeckId →
      t.processOSCMessage now addr [] [] [] = { t.clear with currentDeckId := d }
      ∧ (t.processOSCMessage now addr [] [] []).doesClipExist 2 3 = false)
    ∧ (d = t.currentDeckId → t.processOSCMessage now addr [] [] [] = t)
    ∧ (∀ (i : Int) (is : List Int), t.processOSCMessage now addr [] (i :: is) [] = t) := by
  have hstep : ∀ (ints : List Int),
      t.processOSCMessage now addr [] ints [] =
        t.processParsed now ["decks", ds, "select"] [] ints [] := fun ints =>
    processOSCMessage_eq_processParsed t now addr _ [] ints [] hpre hsplit
  refine ⟨?_, ?_, ?_⟩
  · intro hne
    have heq : t.processOSCMessage now addr [] [] [] = { t.clear with currentDeckId := d } := by
      rw [hstep]
      unfold ResolumeTracker.processParsed
      dsimp only
      rw [if_pos ⟨rfl, by simp⟩, show (["decks", ds, "select"].getD 1 "") = ds from rfl, hds]
      dsimp only
      rw [if_pos ⟨rfl, rfl⟩, if_pos hne]
    exact ⟨heq, by rw [heq]; rfl⟩
  · intro heq
    rw [hstep]
    unfold ResolumeTracker.processParsed
    dsimp only
    rw [if_pos ⟨rfl, by simp⟩, show (["decks", ds, "select"].getD 1 "") = ds from rfl, hds]
    dsimp only
    rw [if_pos ⟨rfl, rfl⟩, if_neg (not_not_intro heq)]
  · intro i is
    rw [hstep]
    unfold ResolumeTracker.processParsed
    dsimp only
    rw [if_pos ⟨rfl, by simp⟩, show (["decks", ds, "select"].getD 1 "") = ds from rfl, hds]
    dsimp only
    rw [if_neg (by simp)]

/-- C1 witness: the amended statement applied at a deck-change from deck 0 to
deck 2, discharging the hypotheses at the concrete address. -/
theorem C1_deck_select_witness :
    ResolumeTracker.empty.processOSCMessage 0 "/composition/decks/2/select" [] [] [] =
      { ResolumeTracker.empty.clear with currentDeckId := 2 } ∧
    ResolumeTracker.empty.processOSCMessage 0 "/composition/decks/2/select" [] [1] [] =
      ResolumeTracker.empty := by
  obtain ⟨h1, h2, h3⟩ := C1_deck_select_clears_only_without_int_payload
    ResolumeTracker.empty "/composition/decks/2/select" "2" 2 0 rfl rfl rfl
  exact ⟨(h1 (by decide)).1, h3 1 []⟩

/-- C1 counterexample: after deck 1 is current, a deck-select for deck 2
carrying the truthy integer payload `1` is ignored — the tracker neither
clears nor adopts deck 2, contradicting the claim's "(or a payload indicating
truthy)" (the code requires the integer array to be empty). -/
theorem C1_truthy_payload_counterexample :
    ((ResolumeTracker.empty.processOSCMessage 0 "/composition/decks/1/select" [] [] []).processOSCMessage
        0 "/composition/decks/2/select" [] [1] []).currentDeckId = 1
    ∧ ((ResolumeTracker.empty.processOSCMessage 0 "/composition/decks/1/select" [] [] []).processOSCMessage
        0 "/composition/decks/2/select" [] [1] []) =
      ResolumeTracker.empty.processOSCMessage 0 "/composition/decks/1/select" [] [] [] :=
  ⟨rfl, rfl⟩

/-- For a five-part `layers/<id>/<p2>/<p3>/<ep>` path whose endpoint triggers
neither the select/connect block nor the selected/connected skip, processing
trickles down into `routeToLayer`. -/
theorem processParsed_layers_trickle (t : ResolumeTracker) (now : Nat)
    (ls p2 p3 ep : String) (floats : List ℚ) (integers : List Int)
    (strings : List String) (n : Int) (hls : stoi ls = some n)
    (hguard : ResolumeTracker.selectConnectStep t ["layers", ls, p2, p3, ep]
        (decide (ep = "select")) (decide (ep = "connect"))
        ((match integers with | i :: _ => decide (i = 1) | [] => false) ||
         (match floats with | f :: _ => decide (f = 1) | [] => false)) = none)
    (hsel : ep ≠ "selected") (hconn : ep ≠ "connected") :
    t.processParsed now ["layers", ls, p2, p3, ep] floats integers strings =
      t.routeToLayer now n [p2, p3, ep] floats integers strings := by
  unfold ResolumeTracker.processParsed
  dsimp only
  rw [if_neg (by simp)]
  rw [show (["layers", ls, p2, p3, ep].getLastD "") = ep from rfl]
  rw [hguard]
  dsimp only
  rw [if_neg (fun h => h.elim hsel hconn)]
  rw [if_pos ⟨rfl, by simp⟩]
  rw [show (["layers", ls, p2, p3, ep].getD 1 "") = ls from rfl, hls]
  rfl

theorem routeToLayer_modify (t : ResolumeTracker) (now : Nat) (n : Int)
    (remainingPath : List String) (floats : List ℚ) (integers : List Int)
    (strings : List String) (h1 : 1 ≤ n) (h2 : n ≤ 100) :
    t.routeToLayer now n remainingPath floats integers strings =
      { t with layers := modifyAt (growLayers t.layers n.toNat) (n.toNat - 1) (fun l => l.processOSCMessage now remainingPath floats integers strings) } := by
  unfold ResolumeTracker.routeToLayer
  rw [if_neg (by omega), if_neg (by omega)]

theorem layer_process_clips (l : Layer) (now : Nat) (cs : String) (rest : List String)
    (floats : List ℚ) (integers : List Int) (strings : List String) (m : Int)
    (hdig : firstCharIsDigit cs = true) (hcs : stoi cs = some m) (hm : 1 ≤ m) :
    l.processOSCMessage now ("clips" :: cs :: rest) floats integers strings =
      { l with clips := modifyAt (growClips l.clips m.toNat now) (m.toNat - 1) (fun c => c.processOSCMessage now rest floats integers strings) } := by
  simp only [Layer.processOSCMessage]
  rw [hdig]
  rw [if_neg (by simp)]
  rw [hcs]
  dsimp only
  rw [if_neg (by omega)]

/-- A `name` message with a non-empty string payload sets the clip's name. -/
theorem clip_process_name (c : Clip) (now : Nat) (s : String) (ss : List String) :
    c.processOSCMessage now ["name"] [] [] (s :: ss) = { c with name := s } := rfl

/-- C7 counterexample: `getOrCreateLayer` rejects layer ids above its sanity
ceiling of 100, so a message for layer 101 is dropped without growing the
tree — there IS a fixed upper bound on the layer count, contradicting the
claim. -/
theorem C7_layer_cap_counterexample :
    ResolumeTracker.empty.processOSCMessage 0 "/composition/layers/101/clips/1/name"
        [] [] ["Foo"] = ResolumeTracker.empty
    ∧ (ResolumeTracker.empty.processOSCMessage 0 "/composition/layers/101/clips/1/name"
        [] [] ["Foo"]).doesLayerExist 101 = false :=
  ⟨rfl, rfl⟩

/-- C7 (amended): layer and clip nodes are grown lazily for any referenced
layer id in `[1, 100]` and any clip id `≥ 1` (so
`/composition/layers/5/clips/1/name="Foo"` sent before anything about layers
1-4 makes `doesLayerExist(5)` true and leaves layers 1..5 accessible), but a
message naming a layer id above the sanity ceiling of 100 is dropped
unchanged — layer ids are bounded, clip ids are not. -/
theorem C7_lazy_growth_with_layer_cap (addr addrBig ls cs ms : String)
    (n m mBig : Int) (now : Nat)
    (hpre : startsWithPath addr "/composition" = true)
    (hsplit : splitOSCPath addr = ["composition", "layers", ls, "clips", cs, "name"])
    (hpreB : startsWithPath addrBig "/composition" = true)
    (hsplitB : splitOSCPath addrBig = ["composition", "layers", ms, "clips", cs, "name"])
    (hls : stoi ls = some n) (hn1 : 1 ≤ n) (hn100 : n ≤ 100)
    (hcs : stoi cs = some m) (hm1 : 1 ≤ m) (hdig : firstCharIsDigit cs = true)
    (hms : stoi ms = some mBig) (hbig : 100 < mBig) :
    (∀ t : ResolumeTracker, t.processOSCMessage now addrBig [] [] ["Foo"] = t)
    ∧ (ResolumeTracker.empty.processOSCMessage now addr [] [] ["Foo"]).doesLayerExist n = true
    ∧ (∀ k : Int, 1 ≤ k → k ≤ n →
        ((ResolumeTracker.empty.processOSCMessage now addr [] [] ["Foo"]).getLayer k).isSome
          = true) := by
  have hproc : ResolumeTracker.empty.processOSCMessage now addr [] [] ["Foo"] =
      { ResolumeTracker.empty with layers := modifyAt (growLayers [] n.toNat) (n.toNat - 1) (fun l => l.processOSCMessage now ["clips", cs, "name"] [] [] ["Foo"]) } := by
    rw [processOSCMessage_eq_processParsed _ now addr _ [] [] ["Foo"] hpre hsplit]
    rw [processParsed_layers_trickle _ now ls "clips" cs "name" [] [] ["Foo"] n hls rfl
      (by decide) (by decide)]
    exact routeToLayer_modify _ now n _ [] [] ["Foo"] hn1 hn100
  have hlen : (modifyAt (growLayers [] n.toNat) (n.toNat - 1)
      (fun l => l.processOSCMessage now ["clips", cs, "name"] [] [] ["Foo"])).length
        = n.toNat := by
    rw [length_modifyAt, length_growLayers]
    simp
  refine ⟨?_, ?_, ?_⟩
  · intro t
    rw [processOSCMessage_eq_processParsed t now addrBig _ [] [] ["Foo"] hpreB hsplitB]
    rw [processParsed_layers_trickle t now ms "clips" cs "name" [] [] ["Foo"] mBig hms rfl
      (by decide) (by decide)]
    unfold ResolumeTracker.routeToLayer
    rw [if_neg (by omega), if_pos (by omega)]
  · rw [hproc]
    have hget : (modifyAt (growLayers [] n.toNat) (n.toNat - 1)
        (fun l => l.processOSCMessage now ["clips", cs, "name"] [] [] ["Foo"])).get?
          (n.toNat - 1) =
        some ((Layer.create ((0 : Int) + ((n.toNat - 1 : Nat) : Int) + 1)).processOSCMessage
          now ["clips", cs, "name"] [] [] ["Foo"]) := by
      rw [get?_modifyAt_self, growLayers_nil, List.get?_map,
        List.get?_range (by omega : n.toNat - 1 < n.toNat)]
      rfl
    have hlayer : ({ ResolumeTracker.empty with layers := modifyAt (growLayers [] n.toNat) (n.toNat - 1) (fun l => l.processOSCMessage now ["clips", cs, "name"] [] [] ["Foo"]) } : ResolumeTracker).getLayer n =
        some ((Layer.create ((0 : Int) + ((n.toNat - 1 : Nat) : Int) + 1)).processOSCMessage
          now ["clips", cs, "name"] [] [] ["Foo"]) := by
      rw [getLayer_eq_get?]
      · exact hget
      · exact hn1
      · rw [hlen]; omega
    unfold ResolumeTracker.doesLayerExist
    rw [hlayer]
    rw [layer_process_clips _ now cs ["name"] [] [] ["Foo"] m hdig hcs hm1]
    have hclip : (modifyAt (growClips ([] : List Clip) m.toNat now) (m.toNat - 1)
        (fun c => c.processOSCMessage now ["name"] [] [] ["Foo"])).get? (m.toNat - 1) =
        some { Clip.create ((0 : Int) + ((m.toNat - 1 : Nat) : Int) + 1) now with name := "Foo" } := by
      rw [get?_modifyAt_self, growClips_nil, List.get?_map,
        List.get?_range (by omega : m.toNat - 1 < m.toNat)]
      rfl
    rw [List.any_eq_true]
    exact ⟨_, List.get?_mem hclip, rfl⟩
  · intro k hk1 hk2
    rw [hproc]
    have hle : k ≤ ((({ ResolumeTracker.empty with layers := modifyAt (growLayers [] n.toNat) (n.toNat - 1) (fun l => l.processOSCMessage now ["clips", cs, "name"] [] [] ["Foo"]) } : ResolumeTracker)).layers.length : Int) := by
      show k ≤ ((modifyAt (growLayers [] n.toNat) (n.toNat - 1) (fun l => l.processOSCMessage now ["clips", cs, "name"] [] [] ["Foo"])).length : Int)
      rw [hlen]
      omega
    obtain ⟨L, hL⟩ := getLayer_isSome _ k hk1 hle
    rw [hL]
    rfl

/-- C7 witness: the amended statement at the concrete addresses
`/composition/layers/5/clips/1/name` and `/composition/layers/101/clips/1/name`. -/
theorem C7_lazy_growth_witness :
    (ResolumeTracker.empty.processOSCMessage 0 "/composition/layers/101/clips/1/name"
        [] [] ["Foo"] = ResolumeTracker.empty)
    ∧ (ResolumeTracker.empty.processOSCMessage 0 "/composition/layers/5/clips/1/name"
        [] [] ["Foo"]).doesLayerExist 5 = true
    ∧ ((ResolumeTracker.empty.processOSCMessage 0 "/composition/layers/5/clips/1/name"
        [] [] ["Foo"]).getLayer 1).isSome = true := by
  obtain ⟨hA, hB, hC⟩ := C7_lazy_growth_with_layer_cap
    "/composition/layers/5/clips/1/name" "/composition/layers/101/clips/1/name"
    "5" "1" "101" 5 1 101 0 rfl rfl rfl rfl rfl (by decide) (by decide) rfl (by decide)
    rfl rfl (by decide)
  exact ⟨hA ResolumeTracker.empty, hB, hC 1 (by decide) (by decide)⟩

/-- The select/connect block on a clip-level `connect` path: with an asserting
payload the block consumes the message without touching the state (the
isConnect branch is an explicit TODO no-op), with a non-asserting payload the
block is not entered and the message falls through. -/
theorem selectConnectStep_clip_connect (t : ResolumeTracker) (lsS csS : String) (b : Bool) :
    ResolumeTracker.selectConnectStep t ["layers", lsS, "clips", csS, "connect"]
      (decide ("connect" = "select")) (decide ("connect" = "connect")) b =
      (if b then some t else none) := by
  rw [show (decide ("connect" = "select")) = false from rfl,
      show (decide ("connect" = "connect")) = true from rfl]
  cases b with
  | false => rfl
  | true =>
    unfold ResolumeTracker.selectConnectStep
    rw [if_neg (by decide)]
    rw [show (["layers", lsS, "clips", csS, "connect"].headD "") = "layers" from rfl]
    rw [if_neg (by decide), if_pos rfl]
    rw [show (["layers", lsS, "clips", csS, "connect"].getD 1 "") = lsS from rfl]
    cases hls : stoi lsS with
    | none => rfl
    | some L =>
      dsimp only
      rw [if_neg (by simp), if_pos ⟨by simp, rfl⟩]
      rw [show (["layers", lsS, "clips", csS, "connect"].getD 3 "") = csS from rfl]
      cases hd : firstCharIsDigit csS with
      | false => rfl
      | true =>
        rw [if_neg (by decide)]
        cases hcs : stoi csS with
        | none => rfl
        | some C =>
          dsimp only
          rw [if_neg (by simp)]
          rfl

/-- A clip-level `connect` message with the non-asserting int payload `0` is
stored as an ordinary property named `connect`. -/
theorem clip_process_connect_zero (c : Clip) (now : Nat) :
    c.processOSCMessage now ["connect"] [] [0] [] =
      { c with properties := c.properties.setInt "connect" 0 } := rfl

/-- C10: a clip-level `connect` with an asserting payload (int 1 or float 1.0)
leaves the whole tracker state unchanged, while the same address with the
non-asserting int payload 0 falls through to normal routing and is stored on
the addressed clip as a property named `connect` (hence counting toward its
existence threshold). -/
theorem C10_clip_connect_assert_noop_vs_store (t : ResolumeTracker)
    (addr lsS csS : String) (now : Nat)
    (hpre : startsWithPath addr "/composition" = true)
    (hsplit : splitOSCPath addr = ["composition", "layers", lsS, "clips", csS, "connect"]) :
    (t.processOSCMessage now addr [] [1] [] = t)
    ∧ (t.processOSCMessage now addr [1] [] [] = t)
    ∧ (∀ L C : Int, stoi lsS = some L → 1 ≤ L → L ≤ 100 →
        stoi csS = some C → 1 ≤ C → firstCharIsDigit csS = true →
        ∃ lay clip, (t.processOSCMessage now addr [] [0] []).getLayer L = some lay
          ∧ lay.getClip C = some clip
          ∧ clip.properties.find "connect" = some (.intVal 0)) := by
  refine ⟨?_, ?_, ?_⟩
  · rw [processOSCMessage_eq_processParsed t now addr _ [] [1] [] hpre hsplit]
    unfold ResolumeTracker.processParsed
    dsimp only
    rw [if_neg (by simp)]
    rw [show (["layers", lsS, "clips", csS, "connect"].getLastD "") = "connect" from rfl]
    rw [selectConnectStep_clip_connect]
    rfl
  · rw [processOSCMessage_eq_processParsed t now addr _ [1] [] [] hpre hsplit]
    unfold ResolumeTracker.processParsed
    dsimp only
    rw [if_neg (by simp)]
    rw [show (["layers", lsS, "clips", csS, "connect"].getLastD "") = "connect" from rfl]
    rw [selectConnectStep_clip_connect]
    rfl
  · intro L C hL hL1 hL100 hC hC1 hdig
    rw [processOSCMessage_eq_processParsed t now addr _ [] [0] [] hpre hsplit]
    rw [processParsed_layers_trickle t now lsS "clips" csS "connect" [] [0] [] L hL
      (by rw [selectConnectStep_clip_connect]; rfl) (by decide) (by decide)]
    rw [routeToLayer_modify t now L _ [] [0] [] hL1 hL100]
    obtain ⟨lay0, hlay0⟩ := get?_isSome_of_lt (growLayers t.layers L.toNat) (L.toNat - 1)
      (by rw [length_growLayers]; omega)
    have hgetL : ({ t with layers := modifyAt (growLayers t.layers L.toNat) (L.toNat - 1) (fun l => l.processOSCMessage now ["clips", csS, "connect"] [] [0] []) } : ResolumeTracker).getLayer L =
        some (lay0.processOSCMessage now ["clips", csS, "connect"] [] [0] []) := by
      rw [getLayer_eq_get?]
      · show (modifyAt (growLayers t.layers L.toNat) (L.toNat - 1) (fun l => l.processOSCMessage now ["clips", csS, "connect"] [] [0] [])).get? (L.toNat - 1) = _
        rw [get?_modifyAt_self, hlay0]
        rfl
      · exact hL1
      · show L ≤ ((modifyAt (growLayers t.layers L.toNat) (L.toNat - 1) (fun l => l.processOSCMessage now ["clips", csS, "connect"] [] [0] [])).length : Int)
        rw [length_modifyAt, length_growLayers]
        omega
    rw [layer_process_clips lay0 now csS ["connect"] [] [0] [] C hdig hC hC1] at hgetL
    obtain ⟨c0, hc0⟩ := get?_isSome_of_lt (growClips lay0.clips C.toNat now) (C.toNat - 1)
      (by rw [length_growClips]; omega)
    refine ⟨_, c0.processOSCMessage now ["connect"] [] [0] [], hgetL, ?_, ?_⟩
    · rw [getClip_eq_get?]
      · show (modifyAt (growClips lay0.clips C.toNat now) (C.toNat - 1) (fun c => c.processOSCMessage now ["connect"] [] [0] [])).get? (C.toNat - 1) = _
        rw [get?_modifyAt_self, hc0]
        rfl
      · exact hC1
      · show C ≤ ((modifyAt (growClips lay0.clips C.toNat now) (C.toNat - 1) (fun c => c.processOSCMessage now ["connect"] [] [0] [])).length : Int)
        rw [length_modifyAt, length_growClips]
        omega
    · rw [clip_process_connect_zero]
      exact PropertyDictionary.find_setValue _ "connect" (.intVal 0)

/-- C10 witness: the theorem applied at the concrete address
`/composition/layers/3/clips/2/connect` on the fresh tracker. -/
theorem C10_clip_connect_witness :
    ResolumeTracker.empty.processOSCMessage 0 "/composition/layers/3/clips/2/connect"
        [] [1] [] = ResolumeTracker.empty
    ∧ ∃ lay clip,
        (ResolumeTracker.empty.processOSCMessage 0 "/composition/layers/3/clips/2/connect"
          [] [0] []).getLayer 3 = some lay
        ∧ lay.getClip 2 = some clip
        ∧ clip.properties.find "connect" = some (.intVal 0) := by
  obtain ⟨h1, h2, h3⟩ := C10_clip_connect_assert_noop_vs_store ResolumeTracker.empty
    "/composition/layers/3/clips/2/connect" "3" "2" 0 rfl rfl
  exact ⟨h1, h3 3 2 rfl (by decide) (by decide) rfl (by decide) rfl⟩
